import Mathlib

/-!
Verification of the LoTW consumer's reconciliation engine.

Shallow embedding of the Python sources:
  src/lotw/parser.py      (ADIFParser.parse_adif_response_all_fields)
  src/lotw/normalizer.py  (DataNormalizer)
  src/database/operations.py (DatabaseOperations: batch matching, freshness
                              decision, batch insert/update, lastsync update)
  src/lotw/handler.py     (MessageHandler.process_task / handle_delivery)
  src/config.py           (RETRY_DELAY_MS, MAX_RETRIES defaults)

Python strings are modelled as `List Char`; `str` values flowing through the
pipeline keep that representation.  Python `datetime` values are modelled by
the `PyDateTime` structure (six components) with the lexicographic order that
`datetime` comparison uses.  All functions are total; where the Python code
catches an exception and continues, the model returns the corresponding
fallback value, and where an exception escapes, the model signals it with an
`Option`/flag as documented at each definition.
-/

set_option maxRecDepth 4000

/-! ### Python string primitives (over `List Char`) -/

/-- Whitespace as recognised by Python `str.strip()` (ASCII part). -/
def pySpace (c : Char) : Bool :=
  c = ' ' || c = '\t' || c = '\n' || c = '\r' || c = '\x0b' || c = '\x0c'

/-- Python `str.strip()`. -/
def pyStrip (xs : List Char) : List Char :=
  ((xs.dropWhile pySpace).reverse.dropWhile pySpace).reverse

/-- ASCII digit test (Python `\d` / `str.isdigit()` restricted to ASCII,
which is all the repository's data uses). -/
def isDigitC (c : Char) : Bool := '0' ≤ c && c ≤ '9'

/-- Python regex `\w` (ASCII part: letters, digits, underscore). -/
def isWordC (c : Char) : Bool :=
  ('a' ≤ c && c ≤ 'z') || ('A' ≤ c && c ≤ 'Z') || isDigitC c || c = '_'

/-- Python `str.upper()` on one ASCII character (Lean core `Char.toUpper`
has exactly this behaviour). -/
def pyUpperChar (c : Char) : Char := Char.toUpper c

/-- Python `str.upper()`. -/
def pyUpper (xs : List Char) : List Char := xs.map pyUpperChar

/-- Does `xs` start with `pat`? -/
def leadsWith : List Char → List Char → Bool
  | [], _ => true
  | _ :: _, [] => false
  | p :: ps, x :: ys => p = x && leadsWith ps ys

/-- Index of the first occurrence of `pat` in `xs` (Python `str.find`). -/
def findSub? (pat : List Char) : List Char → Option Nat
  | [] => if leadsWith pat [] then some 0 else none
  | x :: ys =>
    if leadsWith pat (x :: ys) then some 0
    else (findSub? pat ys).map (· + 1)

/-- Python `pat in xs`. -/
def containsSub (pat xs : List Char) : Bool := (findSub? pat xs).isSome

/-- Recursion worker for `splitSub`.  `fuel` only bounds the number of split
steps so the recursion is structural (each step consumes at least one
character, so `xs.length + 1` steps always suffice). -/
def splitSubF (pat : List Char) : Nat → List Char → List (List Char)
  | 0, xs => [xs]
  | fuel + 1, xs =>
    match findSub? pat xs with
    | none => [xs]
    | some i => xs.take i :: splitSubF pat fuel (xs.drop (i + pat.length))

/-- Python `xs.split(pat)` for a non-empty separator (`pat = []` never occurs
in the sources; Python would raise there, the model returns `[xs]`). -/
def splitSub (pat : List Char) (xs : List Char) : List (List Char) :=
  if pat = [] then [xs] else splitSubF pat (xs.length + 1) xs

/-- Python `xs.split(pat, 1)[1]`, used only under an `in` guard. -/
def afterFirstSub (pat xs : List Char) : List Char :=
  match findSub? pat xs with
  | none => xs
  | some i => xs.drop (i + pat.length)

/-- Python `int(s)` (sign and surrounding whitespace; underscores between
digits, which never occur in this data, are not modelled). -/
def digitsVal? (xs : List Char) : Option Nat :=
  if xs ≠ [] ∧ xs.all isDigitC then
    some (xs.foldl (fun a c => a * 10 + (c.toNat - 48)) 0)
  else none

def pyInt (xs : List Char) : Option Int :=
  match pyStrip xs with
  | '+' :: ds => (digitsVal? ds).map Int.ofNat
  | '-' :: ds => (digitsVal? ds).map (fun n => -(n : Int))
  | ds => (digitsVal? ds).map Int.ofNat

/-- Python `str.zfill(w)`. -/
def zfill (w : Nat) (xs : List Char) : List Char :=
  if w ≤ xs.length then xs
  else
    match xs with
    | [] => List.replicate w '0'
    | c :: rest =>
      if c = '+' || c = '-' then c :: (List.replicate (w - xs.length) '0' ++ rest)
      else List.replicate (w - xs.length) '0' ++ xs

/-! ### Response parser — src/lotw/parser.py -/

/-- Recursion worker for `removeLineComments`; `fuel = xs.length` suffices
(every step consumes at least one character). -/
def removeLineCommentsF : Nat → List Char → List Char
  | 0, _ => []
  | _, [] => []
  | fuel + 1, '/' :: '/' :: rest =>
    removeLineCommentsF fuel (rest.dropWhile (fun c => c ≠ '\n'))
  | fuel + 1, c :: rest => c :: removeLineCommentsF fuel rest

/-- Python `re.sub(r'//.*', '', block)`: every `//` and the rest of its line is
removed (`.` does not match a newline). -/
def removeLineComments (xs : List Char) : List Char :=
  removeLineCommentsF xs.length xs

/--
One attempted match of the pattern `r'<(\w+):(\d+)>(.{0,\2})'` at the start
of `xs`.  Python's `re` does not accept a backreference inside a `{m,n}`
quantifier, so `{0,\2}` is parsed as the LITERAL text `{0,` + backreference
to group 2 + `}`: group 3 is one non-newline character followed by that
literal text.  (Verified against CPython; this is the behaviour of the code
as written, not of the comment above it in the source.)
Returns the three captured groups and the remaining input after the match.
-/
def matchTagLen (xs : List Char) :
    Option ((List Char × List Char × List Char) × List Char) :=
  match xs with
  | '<' :: r1 =>
    let fname := r1.takeWhile isWordC
    if fname.isEmpty then none
    else
      match r1.drop fname.length with
      | ':' :: r2 =>
        let digits := r2.takeWhile isDigitC
        if digits.isEmpty then none
        else
          match r2.drop digits.length with
          | '>' :: r3 =>
            match r3 with
            | c :: '\x7b' :: '0' :: ',' :: r4 =>
              if c = '\n' then none
              else if leadsWith digits r4 then
                match r4.drop digits.length with
                | '\x7d' :: r5 =>
                  some ((fname, digits,
                         c :: '\x7b' :: '0' :: ',' :: (digits ++ ['\x7d'])), r5)
                | _ => none
              else none
            | _ => none
          | _ => none
      | _ => none
  | _ => none

/-- Recursion worker for `findallTagLen` (`re.findall` scans left to right,
emitting non-overlapping matches).  A successful match always consumes at
least one character (the pattern starts with a literal `<`), so
`fuel = xs.length` suffices; the guard on the continuation point only makes
that bound syntactically evident and is never taken. -/
def findallTagLenF : Nat → List Char → List (List Char × List Char × List Char)
  | 0, _ => []
  | _, [] => []
  | fuel + 1, x :: rest =>
    match matchTagLen (x :: rest) with
    | some (g, remaining) => g :: findallTagLenF fuel (if remaining.length ≤ rest.length then remaining else rest)
    | none => findallTagLenF fuel rest

def findallTagLen (xs : List Char) : List (List Char × List Char × List Char) :=
  findallTagLenF xs.length xs

/-- One attempted match of `r'<(\w+)>([^<]*)'` at the start of `xs`
(`[^<]*` is greedy and does match newlines). -/
def matchTagNoLen (xs : List Char) :
    Option ((List Char × List Char) × List Char) :=
  match xs with
  | '<' :: r1 =>
    let fname := r1.takeWhile isWordC
    if fname.isEmpty then none
    else
      match r1.drop fname.length with
      | '>' :: r2 =>
        let value := r2.takeWhile (fun c => c ≠ '<')
        some ((fname, value), r2.drop value.length)
      | _ => none
  | _ => none

/-- Recursion worker for `findallTagNoLen`; same scanning scheme and fuel
convention as `findallTagLenF`. -/
def findallTagNoLenF : Nat → List Char → List (List Char × List Char)
  | 0, _ => []
  | _, [] => []
  | fuel + 1, x :: rest =>
    match matchTagNoLen (x :: rest) with
    | some (g, remaining) => g :: findallTagNoLenF fuel (if remaining.length ≤ rest.length then remaining else rest)
    | none => findallTagNoLenF fuel rest

/-- The `re.findall` scan of the no-length pattern. -/
def findallTagNoLen (xs : List Char) : List (List Char × List Char) :=
  findallTagNoLenF xs.length xs

/-- A parsed record block: a Python `dict` in insertion order. -/
abbrev RawRecord := List (List Char × List Char)

/-- Python `d[k] = v`: overwrite in place if the key exists, else append. -/
def dictInsert (rec : RawRecord) (k v : List Char) : RawRecord :=
  match rec with
  | [] => [(k, v)]
  | (k0, v0) :: rest =>
    if k0 = k then (k0, v) :: rest else (k0, v0) :: dictInsert rest k v

/-- Python `d.get(k)`. -/
def dictFind? (rec : RawRecord) (k : List Char) : Option (List Char) :=
  match rec with
  | [] => none
  | (k0, v0) :: rest => if k0 = k then some v0 else dictFind? rest k

/-- The per-match body of the parser loop: uppercase the field name, strip
the value, store only non-empty values. -/
def addField (rec : RawRecord) (nameVal : List Char × List Char) : RawRecord :=
  let fname := pyUpper nameVal.1
  let value := pyStrip nameVal.2
  if value.isEmpty then rec else dictInsert rec fname value

def eorMark : List Char := "<eor>".data
def eohMark : List Char := "<eoh>".data
def eofMark : List Char := "<APP_LoTW_EOF>".data
def qsoDateMark : List Char := "QSO_DATE".data
def callKey : List Char := "CALL".data

/-- Field extraction for one block: strip comments, run both `findall`s
(length-tag matches first, exactly as the source concatenates them), fold
the matches into the dict. -/
def blockFields (block : List Char) : RawRecord :=
  let cleaned := removeLineComments block
  let m1 := (findallTagLen cleaned).map (fun g => (g.1, g.2.2))
  let m2 := findallTagNoLen cleaned
  (m1 ++ m2).foldl addField []

/-- The per-block body of `parse_adif_response_all_fields`: skip blank
blocks, cut to the part after a stray header marker, extract fields, keep
the record only if it has a `CALL` field. -/
def processBlock (block : List Char) : Option RawRecord :=
  if (pyStrip block).isEmpty then none
  else
    let block1 :=
      if containsSub eohMark block then (splitSub eohMark block).getD 1 []
      else block
    let qso := blockFields block1
    if qso ≠ [] ∧ (dictFind? qso callKey).isSome then some qso else none

/-- Model of `ADIFParser.parse_adif_response_all_fields` (src/lotw/parser.py). -/
def parse_adif_response_all_fields (content : List Char) : List RawRecord :=
  if ¬ (containsSub eorMark content ∨ containsSub qsoDateMark content) then []
  else
    let c1 :=
      if containsSub eofMark content then (splitSub eofMark content).headD []
      else content
    let c2 := if containsSub eohMark c1 then afterFirstSub eohMark c1 else c1
    (splitSub eorMark c2).filterMap processBlock

/-! ### Python datetimes and `strptime` -/

/-- A Python `datetime` (naive or UTC; the code normalises everything to
UTC, so the timezone is not represented).  Comparison of `datetime` values
is lexicographic on these six components. -/
structure PyDateTime where
  year : Nat
  month : Nat
  day : Nat
  hour : Nat
  minute : Nat
  second : Nat
deriving DecidableEq, Repr

/-- Strictly monotone encoding of the lexicographic `datetime` order: for
values produced by `strptime` the components are bounded (month ≤ 12 < 13,
day ≤ 31 < 32, hour < 24, minute, second < 60), so comparing keys is
exactly the Python comparison. -/
def dtKey (t : PyDateTime) : Nat :=
  ((((t.year * 13 + t.month) * 32 + t.day) * 24 + t.hour) * 60 + t.minute) * 60
    + t.second

def digVal (c : Char) : Nat := c.toNat - 48

def digitsNat (xs : List Char) : Nat :=
  xs.foldl (fun a c => a * 10 + digVal c) 0

/-- Reader for `%Y` in CPython strptime: exactly four digits. -/
def read4Digits (xs : List Char) : Option (Nat × List Char) :=
  if (xs.take 4).length = 4 ∧ (xs.take 4).all isDigitC then
    some (digitsNat (xs.take 4), xs.drop 4)
  else none

/-- Reader for `%m` (regex `1[0-2]|0[1-9]|[1-9]`): one or two digits, value 1–12.
The two-digit branches require a digit in second position, and the literal
following `%m` in the formats used here is never a digit, so maximal munch
coincides with the regex's backtracking. -/
def readMonth : List Char → Option (Nat × List Char)
  | [] => none
  | [c1] => if isDigitC c1 ∧ 1 ≤ digVal c1 then some (digVal c1, []) else none
  | c1 :: c2 :: rest =>
    if c1 = '1' ∧ isDigitC c2 ∧ digVal c2 ≤ 2 then some (10 + digVal c2, rest)
    else if c1 = '0' ∧ isDigitC c2 ∧ 1 ≤ digVal c2 then some (digVal c2, rest)
    else if isDigitC c1 ∧ 1 ≤ digVal c1 then some (digVal c1, c2 :: rest)
    else none

/-- Reader for `%d` (regex `3[01]|[12]\d|0[1-9]|[1-9]`). -/
def readDay : List Char → Option (Nat × List Char)
  | [] => none
  | [c1] => if isDigitC c1 ∧ 1 ≤ digVal c1 then some (digVal c1, []) else none
  | c1 :: c2 :: rest =>
    if c1 = '3' ∧ (c2 = '0' ∨ c2 = '1') then some (30 + digVal c2, rest)
    else if (c1 = '1' ∨ c1 = '2') ∧ isDigitC c2 then
      some (digVal c1 * 10 + digVal c2, rest)
    else if c1 = '0' ∧ isDigitC c2 ∧ 1 ≤ digVal c2 then some (digVal c2, rest)
    else if isDigitC c1 ∧ 1 ≤ digVal c1 then some (digVal c1, c2 :: rest)
    else none

/-- Reader for `%H` (regex `2[0-3]|[0-1]\d|\d`). -/
def readHour : List Char → Option (Nat × List Char)
  | [] => none
  | [c1] => if isDigitC c1 then some (digVal c1, []) else none
  | c1 :: c2 :: rest =>
    if c1 = '2' ∧ isDigitC c2 ∧ digVal c2 ≤ 3 then some (20 + digVal c2, rest)
    else if (c1 = '0' ∨ c1 = '1') ∧ isDigitC c2 then
      some (digVal c1 * 10 + digVal c2, rest)
    else if isDigitC c1 then some (digVal c1, c2 :: rest)
    else none

/-- Reader for `%M` and `%S` (regex `[0-5]\d|\d`; the extra `6[0-1]` leap-second
branch of `%S` always leads to a `ValueError` from the `datetime`
constructor, hence to the same `none` as rejecting it here). -/
def readMinSec : List Char → Option (Nat × List Char)
  | [] => none
  | [c1] => if isDigitC c1 then some (digVal c1, []) else none
  | c1 :: c2 :: rest =>
    if isDigitC c1 ∧ digVal c1 ≤ 5 ∧ isDigitC c2 then
      some (digVal c1 * 10 + digVal c2, rest)
    else if isDigitC c1 then some (digVal c1, c2 :: rest)
    else none

def isLeapYear (y : Nat) : Bool := (y % 4 = 0 && y % 100 ≠ 0) || y % 400 = 0

def daysInMonth (y m : Nat) : Nat :=
  if m = 2 then (if isLeapYear y then 29 else 28)
  else if m = 4 ∨ m = 6 ∨ m = 9 ∨ m = 11 then 30
  else 31

/-- Validation performed by the `datetime` constructor (`MINYEAR = 1`). -/
def mkValidDT (y mo d h mi s : Nat) : Option PyDateTime :=
  if 1 ≤ y ∧ 1 ≤ mo ∧ mo ≤ 12 ∧ 1 ≤ d ∧ d ≤ daysInMonth y mo ∧ h ≤ 23 ∧
      mi ≤ 59 ∧ s ≤ 59 then
    some ⟨y, mo, d, h, mi, s⟩
  else none

/-- Model of `datetime.strptime(s, '%Y-%m-%d %H:%M:%S')`, `none` on `ValueError`
(including trailing unconverted data). -/
def strptimeFull (xs : List Char) : Option PyDateTime :=
  match read4Digits xs with
  | some (y, '-' :: r1) =>
    match readMonth r1 with
    | some (mo, '-' :: r2) =>
      match readDay r2 with
      | some (d, ' ' :: r3) =>
        match readHour r3 with
        | some (h, ':' :: r4) =>
          match readMinSec r4 with
          | some (mi, ':' :: r5) =>
            match readMinSec r5 with
            | some (s, []) => mkValidDT y mo d h mi s
            | _ => none
          | _ => none
        | _ => none
      | _ => none
    | _ => none
  | _ => none

/-- Model of `datetime.strptime(s, '%Y-%m-%d')`, `none` on `ValueError`.  The
handler then zeroes the time components, which are already zero here. -/
def strptimeDateOnly (xs : List Char) : Option PyDateTime :=
  match read4Digits xs with
  | some (y, '-' :: r1) =>
    match readMonth r1 with
    | some (mo, '-' :: r2) =>
      match readDay r2 with
      | some (d, []) => mkValidDT y mo d 0 0 0
      | _ => none
    | _ => none
  | _ => none

/-! ### Field normalizer — src/lotw/normalizer.py, DataNormalizer -/

def modeKey : List Char := "MODE".data
def submodeKey : List Char := "SUBMODE".data
def qslRcvdKey : List Char := "QSL_RCVD".data
def bandKey : List Char := "BAND".data
def freqKey : List Char := "FREQ".data
def qsoDateKey : List Char := "QSO_DATE".data
def timeOnKey : List Char := "TIME_ON".data
def propModeKey : List Char := "PROP_MODE".data
def satNameKey : List Char := "SAT_NAME".data
def gridsquareKey : List Char := "GRIDSQUARE".data
def myGridsquareKey : List Char := "MY_GRIDSQUARE".data
def vuccGridsKey : List Char := "VUCC_GRIDS".data
def iotaKey : List Char := "IOTA".data
def appLotwRxqslKey : List Char := "APP_LOTW_RXQSL".data
def rstSentKey : List Char := "RST_SENT".data
def rstRcvdKey : List Char := "RST_RCVD".data
def stateKey : List Char := "STATE".data
def cqzKey : List Char := "CQZ".data
def ituzKey : List Char := "ITUZ".data
def countryKey : List Char := "COUNTRY".data

/-- Model of `DataNormalizer.normalize_date`: `YYYYMMDD` → `YYYY-MM-DD`, anything
of another length → empty string. -/
def normalize_date (xs : List Char) : List Char :=
  if xs = [] then []
  else
    let s := pyStrip xs
    if s.length = 8 then
      s.take 4 ++ '-' :: ((s.drop 4).take 2 ++ '-' :: (s.drop 6).take 2)
    else []

/-- Model of `DataNormalizer.normalize_time`: `HHMM`/`HHMMSS` → `HH:MM:SS`, any
other length → `00:00:00`. -/
def normalize_time (xs : List Char) : List Char :=
  if xs = [] then "00:00:00".data
  else
    let s := zfill 4 (pyStrip xs)
    if s.length = 4 then s.take 2 ++ ':' :: ((s.drop 2).take 2 ++ ':' :: "00".data)
    else if s.length = 6 then
      s.take 2 ++ ':' :: ((s.drop 2).take 2 ++ ':' :: (s.drop 4).take 2)
    else "00:00:00".data

/-- Keys of the `band_mapping` dict, in insertion order. -/
def band_mapping_keys : List (List Char) :=
  ["160M", "80M", "40M", "30M", "20M", "17M", "15M", "12M", "10M", "6M",
   "2M", "70CM", "23CM", "13CM"].map String.data

/-- Model of `DataNormalizer.normalize_band`. -/
def normalize_band (xs : List Char) : List Char :=
  if xs = [] then []
  else
    let s := pyStrip (pyUpper xs)
    if band_mapping_keys.contains s then s
    else
      match band_mapping_keys.find? (fun k => containsSub k s) with
      | some k => k
      | none => s

/-- Model of `DataNormalizer.get_mode` (MFSK submode substitution, width 10). -/
def get_mode (qso : RawRecord) : List Char :=
  let mode := pyUpper ((dictFind? qso modeKey).getD [])
  if mode = "MFSK".data then
    let submode := (dictFind? qso submodeKey).getD []
    if submode ≠ [] then (pyUpper submode).take 10 else mode.take 10
  else mode.take 10

/-- Model of `DataNormalizer.get_lotw_status`. -/
def get_lotw_status (qso : RawRecord) : List Char :=
  if pyUpper ((dictFind? qso qslRcvdKey).getD []) = "Y".data then "Y".data
  else "N".data

/-- Model of `DataNormalizer.normalize_cqz` / `normalize_ituz`. -/
def normalize_zone (xs : List Char) : Option Int :=
  if xs = [] then none
  else
    let s := pyStrip xs
    (digitsVal? s).map Int.ofNat

/-- Python `float(s)` for a string of digits and dots (the only shape reaching it
here); Python's binary floating point is modelled exactly on `ℚ`. -/
def pyFloat? (s : List Char) : Option ℚ :=
  match splitSub ['.'] s with
  | [whole] => (digitsVal? whole).map (fun n => (n : ℚ))
  | [intPart, fracPart] =>
    if intPart = [] ∧ fracPart = [] then none
    else if intPart.all isDigitC ∧ fracPart.all isDigitC then
      some ((digitsNat intPart : ℚ) + (digitsNat fracPart : ℚ) / ((10 : ℚ) ^ fracPart.length))
    else none
  | _ => none

/-- Python `round` at an integer: half-to-even. -/
def roundHalfEven (q : ℚ) : Int :=
  let f := ⌊q⌋
  let r := q - (f : ℚ)
  if r < 1 / 2 then f
  else if 1 / 2 < r then f + 1
  else if Even f then f else f + 1

/-- Python `round(x, 3)`. -/
def pyRound3 (q : ℚ) : ℚ := (roundHalfEven (q * 1000) : ℚ) / 1000

/-- Model of `DataNormalizer.normalize_frequency`: digits/dots only, values below 10
are MHz and scaled by 1000, rounded to 3 decimals; anything else `none`. -/
def normalize_frequency (xs : List Char) : Option ℚ :=
  if xs = [] then none
  else
    let s := pyStrip xs
    if ¬ (s ≠ [] ∧ s.all (fun c => isDigitC c || c = '.')) then none
    else
      match pyFloat? s with
      | none => none
      | some q => some (pyRound3 (if q < 10 then q * 1000 else q))

/-- Model of `DataNormalizer.parse_lotw_rxqsl`: strip a `//` comment, parse
`YYYY-MM-DD HH:MM:SS`, `none` on failure.  The `tzinfo=utc` attachment in
the source does not change the component values. -/
def parse_lotw_rxqsl (xs : List Char) : Option PyDateTime :=
  if xs = [] then none
  else strptimeFull (pyStrip ((splitSub ['/', '/'] xs).headD []))

/-- Result of the `r150s_lookup.get_dxcc_info` collaborator (spec §6: a
black-box lookup; `country`/`continent` may be absent or empty). -/
structure R150Info where
  country : Option (List Char)
  continent : Option (List Char)
deriving DecidableEq, Repr

/-- The dict returned by `DataNormalizer.prepare_qso_data`, as a typed
record.  `Option` distinguishes Python `None` from an empty string where
the source can produce both. -/
structure NormQSO where
  band : List Char := []
  frequency : Option ℚ := none
  mode : List Char := []
  date : List Char := []
  time : List Char := []
  prop_mode : List Char := []
  sat_name : List Char := []
  lotw : List Char := []
  r150s : Option (List Char) := none
  gridsquare : List Char := []
  my_gridsquare : List Char := []
  vucc_grids : List Char := []
  iota : List Char := []
  app_lotw_rxqsl : Option PyDateTime := none
  rst_sent : List Char := []
  rst_rcvd : List Char := []
  state : Option (List Char) := none
  cqz : Option Int := none
  ituz : Option Int := none
  continent : Option (List Char) := none
  dxcc : Option (List Char) := none
  callsign : List Char := []
  my_callsign : List Char := []
deriving DecidableEq, Repr

/-- The keys of the dict literal `prepare_qso_data` returns, in source
order.  Note `state` — there is no `ru_region` key. -/
def preparedKeys : List (List Char) :=
  ["band", "frequency", "mode", "date", "time", "prop_mode", "sat_name",
   "lotw", "r150s", "gridsquare", "my_gridsquare", "vucc_grids", "iota",
   "app_lotw_rxqsl", "rst_sent", "rst_rcvd", "state", "cqz", "ituz",
   "continent", "dxcc", "callsign", "my_callsign"].map String.data

/-- Model of `DataNormalizer.prepare_qso_data`.  The two lookup collaborators
(`get_dxcc_info` from r150s_lookup and `get_dxcc_from_cty` from
cty_lookup) are passed as functions; they are external to the engine
(spec §6). -/
def prepare_qso_data (r150get : List Char → Option R150Info)
    (ctyget : List Char → Option (List Char))
    (qso : RawRecord) (myCallsign : List Char) : NormQSO :=
  let callsign := pyUpper ((dictFind? qso callKey).getD [])
  let r150_info := if callsign ≠ [] then r150get callsign else none
  let r150s :=
    match r150_info with
    | some info => info.country.bind fun c => if c = [] then none else some (pyUpper c)
    | none => none
  let continent :=
    match r150_info with
    | some info => info.continent.bind fun c => if c = [] then none else some (pyUpper c)
    | none => none
  let dxcc0 := pyStrip (pyUpper ((dictFind? qso countryKey).getD []))
  let dxcc := if dxcc0 = [] ∧ callsign ≠ [] then ctyget callsign else some dxcc0
  let stateVal := pyUpper ((dictFind? qso stateKey).getD [])
  { band := normalize_band ((dictFind? qso bandKey).getD [])
    frequency := normalize_frequency ((dictFind? qso freqKey).getD [])
    mode := get_mode qso
    date := normalize_date ((dictFind? qso qsoDateKey).getD [])
    time := normalize_time ((dictFind? qso timeOnKey).getD [])
    prop_mode := (dictFind? qso propModeKey).getD []
    sat_name := (dictFind? qso satNameKey).getD []
    lotw := get_lotw_status qso
    r150s := r150s
    gridsquare := (dictFind? qso gridsquareKey).getD []
    my_gridsquare := (dictFind? qso myGridsquareKey).getD []
    vucc_grids := (dictFind? qso vuccGridsKey).getD []
    iota := (dictFind? qso iotaKey).getD []
    app_lotw_rxqsl := parse_lotw_rxqsl ((dictFind? qso appLotwRxqslKey).getD [])
    rst_sent := (dictFind? qso rstSentKey).getD []
    rst_rcvd := (dictFind? qso rstRcvdKey).getD []
    state := if stateVal ≠ [] then some stateVal else none
    cqz := normalize_zone ((dictFind? qso cqzKey).getD [])
    ituz := normalize_zone ((dictFind? qso ituzKey).getD [])
    continent := continent
    dxcc := dxcc
    callsign := callsign
    my_callsign := pyUpper myCallsign }

/-! ### Batch matcher — src/database/operations.py -/

/-- A row as returned by the batched lookup in `_find_existing_batch`
(`SELECT id, callsign, date::text, band, mode, time::text, app_lotw_rxqsl`).
The generated UUID is abstracted to a `Nat` identifier. -/
structure ExistingQSO where
  id : Nat
  callsign : List Char
  date : List Char
  band : List Char
  mode : List Char
  time : List Char
  app_lotw_rxqsl : Option PyDateTime
deriving DecidableEq, Repr

/-- The computation `h, m = map(int, t[:5].split(':')); h * 3600 + m * 60` — the
minute-truncated second count used by every time comparison in
operations.py; `none` models the exception that the callers catch. -/
def windowSeconds (t : List Char) : Option Int :=
  match splitSub [':'] (t.take 5) with
  | [hs, ms] =>
    match pyInt hs, pyInt ms with
    | some h, some m => some (h * 3600 + m * 60)
    | _, _ => none
  | _ => none

/-- The candidate test of `process_qso_batch` (operations.py lines
346–369); textually identical logic appears in `_find_existing_batch`
(lines 579–596) and `_batch_update` (lines 828–842): callsign, date, band
and mode must be equal and the minute-truncated times within 300 seconds;
a time whose parse raises makes the candidate fail. -/
def qsoMatches (q : NormQSO) (ex : ExistingQSO) : Bool :=
  (q.callsign == ex.callsign && q.date == ex.date && q.band == ex.band &&
    q.mode == ex.mode) &&
  (match windowSeconds q.time, windowSeconds ex.time with
   | some a, some b => decide ((a - b).natAbs ≤ 300)
   | _, _ => false)

/-- First candidate satisfying the window (the loops `break` on success). -/
def find_existing_match (existing : List ExistingQSO) (q : NormQSO) :
    Option ExistingQSO :=
  existing.find? (qsoMatches q)

/-- Model of `DatabaseOperations._should_update_qso` (arguments: the incoming and the
stored `app_lotw_rxqsl`).  Values are timezone-aware in the source, so the
comparison never raises and the `except: return True` branch is dead. -/
def should_update_qso (newRx oldRx : Option PyDateTime) : Bool :=
  match oldRx with
  | none => true
  | some ex =>
    match newRx with
    | none => true
    | some n => decide (dtKey ex < dtKey n)

/-- What `process_qso_batch` does with one incoming record (lines
340–394): first window match decides update-vs-skip via
`_should_update_qso`; no match means the record is new. -/
inductive Decision where
  | toNew
  | toUpdate (ex : ExistingQSO)
  | skip
deriving DecidableEq, Repr

def classify_qso (existing : List ExistingQSO) (q : NormQSO) : Decision :=
  match find_existing_match existing q with
  | some ex =>
    if should_update_qso q.app_lotw_rxqsl ex.app_lotw_rxqsl then .toUpdate ex
    else .skip
  | none => .toNew

def new_qsos_of (existing : List ExistingQSO) (qs : List NormQSO) :
    List NormQSO :=
  qs.filter (fun q =>
    match classify_qso existing q with
    | .toNew => true
    | _ => false)

def update_qsos_of (existing : List ExistingQSO) (qs : List NormQSO) :
    List NormQSO :=
  qs.filter (fun q =>
    match classify_qso existing q with
    | .toUpdate _ => true
    | _ => false)

/-- Model of `DatabaseOperations._find_existing_batch`: one batched query keyed on
(callsign, date, band, mode) over the account's rows, then the Python-side
window filter keeps, per incoming record, the first candidate inside the
window.  The SQL prefilter never changes which row is the first window
match, so the model filters the stored rows directly (in storage order). -/
def find_existing_batch (stored : List ExistingQSO) (qs : List NormQSO) :
    List ExistingQSO :=
  qs.foldl
    (fun acc q =>
      match stored.find? (qsoMatches q) with
      | some ex => acc ++ [ex]
      | none => acc)
    []

/-! ### Upsert executor — src/database/operations.py -/

/-- A `tlog_qso` row as the engine inserts it (`_batch_insert` stores the
time truncated to `HH:MM`); columns the claims never read are omitted. -/
structure QsoRow where
  id : Nat
  user_id : Int
  callsign : List Char
  my_callsign : List Char
  date : List Char
  time : List Char
  band : List Char
  mode : List Char
  app_lotw_rxqsl : Option PyDateTime
deriving DecidableEq, Repr

/-- Modelled from the spec: the storage uniqueness constraint `unique_qso`
spans (account, callsign, my_callsign, date, band, mode, time); the DDL is
owned by the external store and not part of this repository. -/
def rowKey (r : QsoRow) :
    Int × List Char × List Char × List Char × List Char × List Char × List Char :=
  (r.user_id, r.callsign, r.my_callsign, r.date, r.band, r.mode, r.time)

/-- The SET clause of `_batch_update` (the conditional `ru_region`
assignment can never fire because `new_q.get('ru_region')` is always
`None`: `prepare_qso_data` produces the key `state` instead). -/
structure UpdateSet where
  frequency : Option ℚ
  mode : List Char
  lotw : List Char
  gridsquare : List Char
  my_gridsquare : List Char
  vucc_grids : List Char
  iota : List Char
  app_lotw_rxqsl : Option PyDateTime
  rst_sent : List Char
  rst_rcvd : List Char
  cqz : Option Int
  ituz : Option Int
  prop_mode : List Char
  sat_name : List Char
  dxcc : Option (List Char)
  r150s : Option (List Char)
  continent : Option (List Char)
deriving DecidableEq, Repr

inductive DbWrite where
  | insertRow (r : QsoRow)
  | updateRow (rowId : Nat) (s : UpdateSet)
deriving DecidableEq, Repr

/-- One psycopg2 connection: committed writes and the writes of the open
transaction.  `commit` publishes the pending writes, `rollback` (and a
close without commit) discards them. -/
structure PgConn where
  committed : List DbWrite
  pending : List DbWrite
deriving DecidableEq, Repr

def commitConn (c : PgConn) : PgConn := ⟨c.committed ++ c.pending, []⟩
def rollbackConn (c : PgConn) : PgConn := ⟨c.committed, []⟩

/-- Rows visible to the batched lookup (the lookup runs before any write of
the same task, so the insert log is the relevant view). -/
def tableRows (c : PgConn) : List QsoRow :=
  c.committed.filterMap fun w =>
    match w with
    | .insertRow r => some r
    | .updateRow _ _ => none

def rowToExisting (r : QsoRow) : ExistingQSO :=
  ⟨r.id, r.callsign, r.date, r.band, r.mode, r.time, r.app_lotw_rxqsl⟩

/-- The keys `_batch_insert` reads by subscription (`q[...]`) while
building the INSERT parameters, in first-access order (lines 652–709 of
operations.py).  A key missing from the dict raises `KeyError` there. -/
def batchInsertRequiredKeys : List (List Char) :=
  ["date", "time", "callsign", "my_callsign", "band", "frequency", "mode",
   "prop_mode", "sat_name", "lotw", "r150s", "gridsquare", "my_gridsquare",
   "vucc_grids", "iota", "rst_sent", "rst_rcvd", "ru_region", "cqz", "ituz",
   "continent", "dxcc"].map String.data

/-- The row the INSERT statement would create for one record: fresh
generated identifier, `date_str = str(q['date'])`,
`time_str = q['time'][:5]` (minute truncation). -/
def mkInsertRow (user : Int) (idv : Nat) (q : NormQSO) : QsoRow :=
  { id := idv, user_id := user, callsign := q.callsign,
    my_callsign := q.my_callsign, date := q.date, time := q.time.take 5,
    band := q.band, mode := q.mode, app_lotw_rxqsl := q.app_lotw_rxqsl }

/-- Modelled from the spec: PostgreSQL semantics of the multi-row
`INSERT ... ON CONFLICT ON CONSTRAINT unique_qso DO NOTHING RETURNING 1` —
each row is written iff its key conflicts with neither the table nor an
earlier row of the same statement, and `RETURNING` yields one row per row
actually written. -/
def rowKeyEq (a b : QsoRow) : Bool :=
  a.user_id == b.user_id && a.callsign == b.callsign &&
  a.my_callsign == b.my_callsign && a.date == b.date && a.band == b.band &&
  a.mode == b.mode && a.time == b.time

def execInsertOnConflict (table : List QsoRow) (rows : List QsoRow) :
    List QsoRow :=
  rows.foldl
    (fun acc r =>
      if (table ++ acc).any (fun t => rowKeyEq t r) then acc
      else acc ++ [r])
    []

/-- Model of `DatabaseOperations._batch_insert`.  Fresh identifiers are modelled as
`idBase, idBase + 1, …`.  Building the parameters evaluates
`q['ru_region']`, a key `prepare_qso_data` never produces, so the key-set
check fails, the `except` clause rolls the transaction back and 0 is
returned — the execute/commit arm is unreachable with the current
normalizer output. -/
def batch_insert (conn : PgConn) (user : Int) (qs : List NormQSO)
    (idBase : Nat) : PgConn × Nat :=
  if qs = [] then (conn, 0)
  else if batchInsertRequiredKeys.all (fun k => preparedKeys.contains k) then
    let rows := ((List.range qs.length).zip qs).map
      (fun p => mkInsertRow user (idBase + p.1) p.2)
    let ins := execInsertOnConflict (tableRows conn) rows
    (commitConn { conn with pending := conn.pending ++ ins.map DbWrite.insertRow },
     ins.length)
  else (rollbackConn conn, 0)

/-- The SET values `_batch_update` sends for one matched record (`dxcc`,
`r150s`, `continent` only when the respective lookup/field is truthy;
`ru_region` never, see `UpdateSet`). -/
def mkUpdateSet (r150get : List Char → Option R150Info)
    (ctyget : List Char → Option (List Char)) (q : NormQSO) : UpdateSet :=
  { frequency := q.frequency, mode := q.mode, lotw := q.lotw,
    gridsquare := q.gridsquare, my_gridsquare := q.my_gridsquare,
    vucc_grids := q.vucc_grids, iota := q.iota,
    app_lotw_rxqsl := q.app_lotw_rxqsl,
    rst_sent := q.rst_sent, rst_rcvd := q.rst_rcvd,
    cqz := q.cqz, ituz := q.ituz,
    prop_mode := q.prop_mode, sat_name := q.sat_name,
    dxcc := (ctyget q.callsign).bind fun d => if d = [] then none else some d,
    r150s :=
      match r150get q.callsign with
      | some info => info.country.bind fun c => if c = [] then none else some (pyUpper c)
      | none => none,
    continent := q.continent.bind fun c => if c = [] then none else some c }

/-- The (record, candidate) pairs `_batch_update` actually updates: for
each record of the update list, the first window-matching candidate from
`existing_qsos` (same predicate and order as the classification). -/
def applied_updates (updQs : List NormQSO) (existing : List ExistingQSO) :
    List (NormQSO × ExistingQSO) :=
  updQs.filterMap fun q => (existing.find? (qsoMatches q)).map (fun ex => (q, ex))

/-- Model of `DatabaseOperations._batch_update`.  `sqlFail` injects the
database-side failure of the UPDATE execution (the `except` clause rolls
back and returns 0); otherwise every applied update is executed and the
whole set committed once. -/
def batch_update (r150get : List Char → Option R150Info)
    (ctyget : List Char → Option (List Char)) (conn : PgConn)
    (updQs : List NormQSO) (existing : List ExistingQSO) (sqlFail : Bool) :
    PgConn × Nat :=
  if updQs = [] ∨ existing = [] then (conn, 0)
  else if sqlFail then (rollbackConn conn, 0)
  else
    let ws := (applied_updates updQs existing).map
      (fun p => DbWrite.updateRow p.2.id (mkUpdateSet r150get ctyget p.1))
    (commitConn { conn with pending := conn.pending ++ ws }, ws.length)

/-- Counters of the dict `process_qso_batch` returns. -/
structure BatchResult where
  success : Bool
  qso_added : Nat
  qso_updated : Nat
deriving DecidableEq, Repr

/-- Model of `DatabaseOperations.process_qso_batch`, from the point where the
records are normalized (the connection and table-structure guards pass):
batched lookup, classification, `_batch_insert` of the new records,
`_batch_update` of the fresher matched records, and a result that reports
success regardless of what the two batch helpers did (their exceptions are
swallowed inside them). -/
def process_qso_batch_db (r150get : List Char → Option R150Info)
    (ctyget : List Char → Option (List Char)) (conn : PgConn) (user : Int)
    (normalized : List NormQSO) (updSqlFail : Bool) (idBase : Nat) :
    PgConn × BatchResult :=
  let existing := find_existing_batch
    (((tableRows conn).filter (fun r => r.user_id == user)).map rowToExisting) normalized
  let newQs := new_qsos_of existing normalized
  let updQs := update_qsos_of existing normalized
  let insRes := if newQs ≠ [] then batch_insert conn user newQs idBase else (conn, 0)
  let updRes :=
    if updQs ≠ [] then batch_update r150get ctyget insRes.1 updQs existing updSqlFail
    else (insRes.1, 0)
  (updRes.1, { success := true, qso_added := insRes.2, qso_updated := updRes.2 })

/-! ### Task retry orchestrator — src/lotw/handler.py, src/config.py -/

/-- Config default `RETRY_DELAY_MS` (45 minutes). -/
def RETRY_DELAY_MS : Nat := 2700000

/-- Config default `MAX_RETRIES`. -/
def MAX_RETRIES : Nat := 3

/-- The task-message fields the retry logic reads/writes (`last_retry`,
credentials and identifiers are carried along unchanged and omitted). -/
structure SyncTask where
  retry_count : Nat := 0
  created_at : Option (List Char) := none
  last_error : Option (List Char) := none
deriving DecidableEq, Repr

/-- Python `s.replace(pat, repl)` for a non-empty `pat`. -/
def replaceSub (pat repl xs : List Char) : List Char :=
  List.intercalate repl (splitSub pat xs)

/-- Two mandatory digits (fixed-width fields of `fromisoformat`). -/
def read2Digits : List Char → Option (Nat × List Char)
  | a :: b :: rest =>
    if isDigitC a ∧ isDigitC b then some (digVal a * 10 + digVal b, rest)
    else none
  | _ => none

/-- Model of `datetime.fromisoformat` restricted to the complete layouts
`YYYY-MM-DD[*HH:MM:SS[±HH:MM]]` (shorter time forms and fractional seconds
never occur in this system's task messages).  The handler replaces `Z`
with `+00:00` first and then drops the offset (`tzinfo=None`) without
shifting the components. -/
def pyFromIso (s0 : List Char) : Option PyDateTime :=
  let s := replaceSub ['Z'] ("+00:00".data) s0
  match read4Digits s with
  | some (y, '-' :: r1) =>
    match read2Digits r1 with
    | some (mo, '-' :: r2) =>
      match read2Digits r2 with
      | some (d, []) => mkValidDT y mo d 0 0 0
      | some (d, _sep :: r3) =>
        match read2Digits r3 with
        | some (h, ':' :: r4) =>
          match read2Digits r4 with
          | some (mi, ':' :: r5) =>
            match read2Digits r5 with
            | some (sec, []) => mkValidDT y mo d h mi sec
            | some (sec, c :: off) =>
              if c = '+' ∨ c = '-' then
                match read2Digits off with
                | some (_, ':' :: r6) =>
                  match read2Digits r6 with
                  | some (_, []) => mkValidDT y mo d h mi sec
                  | _ => none
                | _ => none
              else none
            | none => none
          | _ => none
        | _ => none
      | none => none
    | _ => none
  | _ => none

/-- The `lotw_lastsync` value computed on the success path of
`process_task` (handler.py lines 106–140): parse `task['created_at']`; an
ISO string (containing `T`) goes through `fromisoformat` whose
`ValueError` is NOT caught (`none` here — the task then fails); other
strings fall through `%Y-%m-%d %H:%M:%S`, then `%Y-%m-%d`, then the
current time; an absent/empty field uses the current time. -/
def lastsync_marker (created_at : Option (List Char)) (now : PyDateTime) :
    Option PyDateTime :=
  match created_at with
  | none => some now
  | some s =>
    if s = [] then some now
    else if containsSub ['T'] s then pyFromIso s
    else
      some
        (match strptimeFull s with
         | some dt => dt
         | none =>
           match strptimeDateOnly s with
           | some dt => dt
           | none => now)

inductive BrokerAction where
  | acked
  | rescheduled (t : SyncTask) (delayMs : Nat)
  | deadLettered
deriving DecidableEq, Repr

/-- Observable effect of one delivery: what happens to the broker message,
and the value written to the account's `lotw_lastsync` marker (`none` =
the marker is not touched). -/
structure DeliveryEffect where
  action : BrokerAction
  marker : Option PyDateTime
deriving DecidableEq, Repr

/-- Model of `MessageHandler.process_task` plus `handle_delivery` for one delivered,
well-formed task message.  `batchSuccess` abstracts the success flag of
the remote call plus `process_qso_batch` (both failure kinds reach the
retry logic the same way); `errMsg` is the error string recorded on
failure.  On success the marker is written and the delivery acked; on
failure the marker is untouched and the task is either republished to the
delayed queue with the fixed TTL (then the original delivery is acked) or,
past the budget, nacked without requeue. -/
def handle_delivery (maxRetries : Nat) (task : SyncTask) (batchSuccess : Bool)
    (errMsg : List Char) (now : PyDateTime) : DeliveryEffect :=
  let parsed :=
    if batchSuccess then
      match lastsync_marker task.created_at now with
      | some m => (some m, true)
      | none => (none, false)
    else (none, false)
  if parsed.2 then { action := .acked, marker := parsed.1 }
  else
    let rc := task.retry_count + 1
    if rc ≤ maxRetries then
      { action := .rescheduled
          { task with retry_count := rc, last_error := some errMsg }
          RETRY_DELAY_MS,
        marker := none }
    else { action := .deadLettered, marker := none }

/-! ### Claim instance data and invariant predicates -/

/-- The invariant of one dict entry produced by the parser: no lowercase
letter in the key, and a non-empty, already-stripped value. -/
def EntryOk (kv : List Char × List Char) : Prop :=
  (∀ c ∈ kv.1, c.isLower = false) ∧ kv.2 ≠ [] ∧ pyStrip kv.2 = kv.2

def RecordOk (rec : RawRecord) : Prop := ∀ kv ∈ rec, EntryOk kv

/-- Spec-side definition (C1's own words): a record's time in full
seconds, read from the complete `HH:MM:SS` representation — used to
compare the claim against the code's minute-truncated rule. -/
def specTimeSeconds (t : List Char) : Option Int :=
  match splitSub [':'] t with
  | [hs, ms, ss] =>
    match pyInt hs, pyInt ms, pyInt ss with
    | some h, some m, some s => some (h * 3600 + m * 60 + s)
    | _, _, _ => none
  | _ => none

/-- C1 counterexample data: same callsign/date/band/mode, incoming time
12:35:59 (reachable: `normalize_time "123559"`), stored time 12:30:00. -/
def cexQ1 : NormQSO :=
  { callsign := "UA1ABC".data, date := "2024-01-15".data, band := "20M".data,
    mode := "CW".data, time := "12:35:59".data }

def cexEx1 : ExistingQSO :=
  ⟨0, "UA1ABC".data, "2024-01-15".data, "20M".data, "CW".data,
   "12:30:00".data, none⟩

/-- C2 witness data: stored freshness 2024-01-20 10:00:00, incoming
2024-01-19 00:00:00 (older). -/
def cexEx2 : ExistingQSO :=
  ⟨3, "UA1ABC".data, "2024-01-15".data, "20M".data, "CW".data,
   "12:30:00".data, some ⟨2024, 1, 20, 10, 0, 0⟩⟩

def cexQ2 : NormQSO :=
  { callsign := "UA1ABC".data, date := "2024-01-15".data, band := "20M".data,
    mode := "CW".data, time := "12:31:00".data,
    app_lotw_rxqsl := some ⟨2024, 1, 19, 0, 0, 0⟩ }

/-- Trivial lookup collaborators (miss everything) for concrete runs. -/
def noLookupR150 : List Char → Option R150Info := fun _ => none

def noLookupCty : List Char → Option (List Char) := fun _ => none

/-- C3 counterexample data: the stored row carries a freshness timestamp,
the matching incoming record carries none. -/
def cexEx3 : ExistingQSO :=
  ⟨7, "UA1ABC".data, "2024-01-15".data, "20M".data, "CW".data,
   "12:30:00".data, some ⟨2024, 1, 20, 10, 0, 0⟩⟩

def cexQ3 : NormQSO :=
  { callsign := "UA1ABC".data, date := "2024-01-15".data, band := "20M".data,
    mode := "CW".data, time := "12:30:00".data, app_lotw_rxqsl := none }

/-- The update-path writes one task produces (for the amended C4). -/
def updateWritesOf (r150get : List Char → Option R150Info)
    (ctyget : List Char → Option (List Char)) (cc : List DbWrite) (user : Int)
    (qs : List NormQSO) : List DbWrite :=
  (applied_updates
      (update_qsos_of
        (find_existing_batch
          (((tableRows ⟨cc, []⟩).filter (fun r => r.user_id == user)).map
            rowToExisting) qs) qs)
      (find_existing_batch
        (((tableRows ⟨cc, []⟩).filter (fun r => r.user_id == user)).map
          rowToExisting) qs)).map
    (fun p => DbWrite.updateRow p.2.id (mkUpdateSet r150get ctyget p.1))

/-- C4 counterexample data: one stored matching row, one genuinely new
incoming record (insert-path work) and one fresher matched record
(update-path work). -/
def row4 : QsoRow :=
  ⟨7, 1, "UA1ABC".data, "R3LO".data, "2024-01-15".data, "12:30".data,
   "20M".data, "CW".data, none⟩

def conn4 : PgConn := ⟨[DbWrite.insertRow row4], []⟩

def qNew4 : NormQSO :=
  { callsign := "W1AW".data, date := "2024-01-15".data, band := "20M".data,
    mode := "CW".data, time := "10:00:00".data, my_callsign := "R3LO".data }

def qUpd4 : NormQSO :=
  { callsign := "UA1ABC".data, date := "2024-01-15".data, band := "20M".data,
    mode := "CW".data, time := "12:31:00".data, my_callsign := "R3LO".data }

/-- C5 witness input. -/
def cexQ5 : NormQSO :=
  { callsign := "K1AB".data, date := "2024-02-01".data, band := "40M".data,
    mode := "FT8".data, time := "08:15:00".data, my_callsign := "R3LO".data }

/-- C9 counterexample data: the producer stamps `created_at` with the task
creation DATE; the completion time is days later. -/
def task9 : SyncTask := ⟨0, some ("2025-10-01".data), none⟩

def now9 : PyDateTime := ⟨2025, 10, 12, 9, 30, 0⟩

/-! ### Helper lemmas -/

theorem toNat_ofNat_of_lt {n : Nat} (h : n < 55296) : (Char.ofNat n).toNat = n := by
  rw [Char.ofNat, dif_pos (Or.inl (by omega : n < 55296))]
  simp [Char.ofNatAux, Char.toNat, UInt32.ofNat', UInt32.toNat, BitVec.toNat_ofNatLt]

theorem uint32_le_iff {a b : UInt32} : a ≤ b ↔ a.toNat ≤ b.toNat := by
  rw [UInt32.le_def, BitVec.le_def]; rfl

/-- Mapping a character by `str.upper()` never leaves a lowercase ASCII letter. -/
theorem toUpper_not_lower (c : Char) : (Char.toUpper c).isLower = false := by
  rw [Char.toUpper]
  by_cases h : 97 ≤ c.toNat ∧ c.toNat ≤ 122
  · rw [if_pos h]
    have hv : (Char.ofNat (c.toNat - 32)).toNat = c.toNat - 32 :=
      toNat_ofNat_of_lt (by omega)
    simp only [Char.isLower]
    have hnot : ¬ ((97 : UInt32) ≤ (Char.ofNat (c.toNat - 32)).val) := by
      intro hle
      have h2 : (97 : Nat) ≤ (Char.ofNat (c.toNat - 32)).toNat := uint32_le_iff.mp hle
      omega
    simp [hnot]
  · rw [if_neg h]
    simp only [Char.isLower]
    rcases Decidable.not_and_iff_or_not.mp h with h1 | h1
    · have hnot : ¬ ((97 : UInt32) ≤ c.val) := by
        intro hle
        exact h1 (uint32_le_iff.mp hle)
      simp [hnot]
    · have hnot : ¬ (c.val ≤ (122 : UInt32)) := by
        intro hle
        exact h1 (uint32_le_iff.mp hle)
      simp [hnot]

theorem pyStrip_eq_rdrop (xs : List Char) :
    pyStrip xs = List.rdropWhile pySpace (List.dropWhile pySpace xs) := rfl

/-- Python `str.strip()` is idempotent. -/
theorem pyStrip_idem (xs : List Char) : pyStrip (pyStrip xs) = pyStrip xs := by
  rw [pyStrip_eq_rdrop, pyStrip_eq_rdrop]
  set u := List.dropWhile pySpace xs with hu
  have hufix : List.dropWhile pySpace u = u := List.dropWhile_idempotent _ _
  obtain ⟨t, ht⟩ := List.rdropWhile_prefix pySpace u
  have hdrop2 : List.dropWhile pySpace (List.rdropWhile pySpace u) =
      List.rdropWhile pySpace u := by
    cases hr : List.rdropWhile pySpace u with
    | nil => simp
    | cons a as =>
      rw [hr] at ht
      have hua : u = a :: (as ++ t) := by rw [← ht]; simp
      have hfix2 : List.dropWhile pySpace (a :: (as ++ t)) = a :: (as ++ t) := by
        rw [← hua]; exact hufix
      have hpa : pySpace a = false := by
        by_contra hc
        have hpa2 : pySpace a = true := by
          cases hb : pySpace a with
          | false => exact absurd hb hc
          | true => rfl
        rw [List.dropWhile_cons, if_pos hpa2] at hfix2
        have hlen : (List.dropWhile pySpace (as ++ t)).length =
            (a :: (as ++ t)).length := congrArg List.length hfix2
        have hle := List.Sublist.length_le (List.dropWhile_sublist (l := as ++ t) pySpace)
        simp only [List.length_cons] at hlen
        omega
      rw [List.dropWhile_cons, if_neg (by simp [hpa])]
  rw [hdrop2, List.rdropWhile_idempotent]

theorem pyUpper_key_ok (n : List Char) : ∀ c ∈ pyUpper n, c.isLower = false := by
  intro c hc
  obtain ⟨c0, _, rfl⟩ := List.mem_map.mp hc
  exact toUpper_not_lower c0

theorem dictInsert_ok {rec : RawRecord} {k v : List Char} (hr : RecordOk rec)
    (hk : ∀ c ∈ k, c.isLower = false) (hv : v ≠ [] ∧ pyStrip v = v) :
    RecordOk (dictInsert rec k v) := by
  induction rec with
  | nil =>
    intro kv hkv
    simp only [dictInsert, List.mem_singleton] at hkv
    subst hkv
    exact ⟨hk, hv⟩
  | cons hd tl ih =>
    obtain ⟨k0, v0⟩ := hd
    intro kv hkv
    simp only [dictInsert] at hkv
    split at hkv
    · rename_i hk0
      subst hk0
      rcases List.mem_cons.mp hkv with h | h
      · subst h
        exact ⟨hk, hv⟩
      · exact hr _ (List.mem_cons_of_mem _ h)
    · rcases List.mem_cons.mp hkv with h | h
      · subst h
        exact hr _ (List.mem_cons_self _ _)
      · exact ih (fun kv2 hkv2 => hr _ (List.mem_cons_of_mem _ hkv2)) _ h

theorem addField_ok {rec : RawRecord} (hr : RecordOk rec)
    (nv : List Char × List Char) : RecordOk (addField rec nv) := by
  rw [addField]
  split
  · exact hr
  · rename_i hne
    refine dictInsert_ok hr (pyUpper_key_ok _) ⟨?_, pyStrip_idem _⟩
    intro hnil
    rw [hnil] at hne
    simp at hne

theorem foldl_addField_ok (l : List (List Char × List Char)) :
    ∀ init : RawRecord, RecordOk init → RecordOk (l.foldl addField init) := by
  induction l with
  | nil => intro init h; simpa using h
  | cons hd tl ih =>
    intro init h
    simpa using ih (addField init hd) (addField_ok h hd)

theorem blockFields_ok (block : List Char) : RecordOk (blockFields block) := by
  rw [blockFields]
  exact foldl_addField_ok _ [] (by intro kv h; simp at h)

theorem processBlock_ok {block : List Char} {rec : RawRecord}
    (h : processBlock block = some rec) :
    RecordOk rec ∧ (dictFind? rec callKey).isSome := by
  simp only [processBlock] at h
  split at h
  · simp at h
  · split at h
    · split at h
      · rename_i hcond
        injection h with h2
        subst h2
        exact ⟨blockFields_ok _, hcond.2⟩
      · simp at h
    · split at h
      · rename_i hcond
        injection h with h2
        subst h2
        exact ⟨blockFields_ok _, hcond.2⟩
      · simp at h

theorem dictFind?_mem {rec : RawRecord} {k v : List Char}
    (h : dictFind? rec k = some v) : (k, v) ∈ rec := by
  induction rec with
  | nil => simp [dictFind?] at h
  | cons hd tl ih =>
    obtain ⟨k0, v0⟩ := hd
    simp only [dictFind?] at h
    split at h
    · rename_i hk0
      obtain ⟨rfl⟩ := Option.some.inj h
      subst hk0
      exact List.mem_cons_self _ _
    · exact List.mem_cons_of_mem _ (ih h)

/-! ### Claim theorems -/

/-- C10: for every input text, every record in the parser's output
contains a non-empty field named CALL, no field name contains a lowercase
letter, and every field value is non-empty and invariant under whitespace
trimming; a block that produces no CALL field yields no record at all (and
the model is a total function — nothing raises). -/
theorem claim_C10_parser_output_invariant (content : List Char)
    (rec : RawRecord) (hmem : rec ∈ parse_adif_response_all_fields content) :
    (∃ v, dictFind? rec callKey = some v ∧ v ≠ []) ∧
      ∀ kv ∈ rec, (∀ c ∈ kv.1, c.isLower = false) ∧ kv.2 ≠ [] ∧
        pyStrip kv.2 = kv.2 := by
  simp only [parse_adif_response_all_fields] at hmem
  split at hmem
  · simp at hmem
  · obtain ⟨b, _, hb⟩ := List.mem_filterMap.mp hmem
    obtain ⟨hok, hsome⟩ := processBlock_ok hb
    obtain ⟨v, hv⟩ := Option.isSome_iff_exists.mp hsome
    have hmem2 := dictFind?_mem hv
    exact ⟨⟨v, hv, (hok _ hmem2).2.1⟩, fun kv hkv => hok kv hkv⟩

/-- Witness for C10 at a concrete parsed record. -/
theorem claim_C10_witness :
    ([("CALL".data, "UA1ABC".data)] : RawRecord) ∈
        parse_adif_response_all_fields ("<CALL>UA1ABC<eor>".data) ∧
      ((∃ v, dictFind? [("CALL".data, "UA1ABC".data)] callKey = some v ∧ v ≠ []) ∧
        ∀ kv ∈ ([("CALL".data, "UA1ABC".data)] : RawRecord),
          (∀ c ∈ kv.1, c.isLower = false) ∧ kv.2 ≠ [] ∧ pyStrip kv.2 = kv.2) :=
  ⟨by decide,
   claim_C10_parser_output_invariant ("<CALL>UA1ABC<eor>".data)
     [("CALL".data, "UA1ABC".data)] (by decide)⟩

/-- C6 (code bug): the claim's literal block parses to NO record at all —
the length-tag regex `(.\x7b0,\2\x7d)` is taken literally by Python, so
`<CALL:6>UA1ABC…` matches neither pattern and the block is dropped for
lack of a CALL field.  The normalizer, by contrast, maps the claimed raw
fields to exactly the claimed values, confirming the claim is right about
everything downstream of the parse. -/
theorem claim_C6_literal_round_trip :
    parse_adif_response_all_fields
        ("<CALL:6>UA1ABC<QSO_DATE:8>20240115<TIME_ON:4>1230<BAND:3>20M<MODE:2>CW<eor>".data)
      = [] ∧
    normalize_date ("20240115".data) = "2024-01-15".data ∧
    normalize_time ("1230".data) = "12:30:00".data ∧
    normalize_band ("20M".data) = "20M".data ∧
    get_mode [(modeKey, "CW".data)] = "CW".data := by decide

/-- C7 (code bug): a length-tagged field `<CALL:4>ABCDEF` is never
extracted (the claim says CALL = "ABCD"): the block yields no fields and
is dropped.  The length-tag pattern only fires on text that literally
contains `\x7b0,LEN\x7d` after one character — the broken remnant of the
intended truncation.  The no-length form `<NAME>VALUE` does work as
claimed. -/
theorem claim_C7_field_extraction :
    parse_adif_response_all_fields ("<CALL:4>ABCDEF<eor>".data) = [] ∧
    findallTagLen ("<CALL:4>ABCDEF".data) = [] ∧
    findallTagLen ("<CALL:4>A\x7b0,4\x7d".data) =
      [("CALL".data, "4".data, "A\x7b0,4\x7d".data)] ∧
    parse_adif_response_all_fields ("<CALL>UA1ABC<eor>".data) =
      [[(callKey, "UA1ABC".data)]] := by decide

/-- C1 fails as stated: the code compares minute-truncated times, so this
pair matches although the full-time difference is 359 s ≥ 301 s — the
claim says such a pair never matches. -/
theorem claim_C1_counterexample :
    qsoMatches cexQ1 cexEx1 = true ∧
    normalize_time ("123559".data) = cexQ1.time ∧
    specTimeSeconds cexQ1.time = some 45359 ∧
    specTimeSeconds cexEx1.time = some 45000 ∧
    ((45359 : Int) - 45000).natAbs = 359 ∧ 301 ≤ (359 : Nat) := by decide

/-- C1 amended: a pair matches iff callsign, date, band and mode are equal
and the MINUTE-TRUNCATED times (seconds ignored) differ by at most 300
seconds; records differing in any of the four fields never match
regardless of time. -/
theorem claim_C1_matching_rule (q : NormQSO) (ex : ExistingQSO) :
    (∀ a b : Int, windowSeconds q.time = some a →
        windowSeconds ex.time = some b →
        (qsoMatches q ex = true ↔
          (q.callsign = ex.callsign ∧ q.date = ex.date ∧ q.band = ex.band ∧
            q.mode = ex.mode ∧ (a - b).natAbs ≤ 300))) ∧
    ((q.callsign ≠ ex.callsign ∨ q.date ≠ ex.date ∨ q.band ≠ ex.band ∨
        q.mode ≠ ex.mode) → qsoMatches q ex = false) := by
  constructor
  · intro a b ha hb
    simp [qsoMatches, ha, hb, and_assoc]
  · intro hne
    rcases hne with h | h | h | h <;>
      simp [qsoMatches, beq_iff_eq, h]

/-- Witness for C1 at the counterexample pair. -/
theorem claim_C1_witness :
    qsoMatches cexQ1 cexEx1 = true ↔
      (cexQ1.callsign = cexEx1.callsign ∧ cexQ1.date = cexEx1.date ∧
        cexQ1.band = cexEx1.band ∧ cexQ1.mode = cexEx1.mode ∧
        ((45300 : Int) - 45000).natAbs ≤ 300) :=
  (claim_C1_matching_rule cexQ1 cexEx1).1 45300 45000 (by decide) (by decide)

/-- C2: for a matched pair, an incoming freshness not newer than the
stored one classifies the record as `skip` — it enters neither the update
nor the new list, so no field is written; a strictly newer incoming
freshness classifies it for update; an absent stored freshness always
classifies it for update. -/
theorem claim_C2_freshness_decision (existing : List ExistingQSO)
    (q : NormQSO) (ex : ExistingQSO)
    (hfind : find_existing_match existing q = some ex) :
    (∀ t T, q.app_lotw_rxqsl = some t → ex.app_lotw_rxqsl = some T →
      ((dtKey t ≤ dtKey T →
          classify_qso existing q = Decision.skip ∧
          ∀ qs : List NormQSO,
            q ∉ update_qsos_of existing qs ∧ q ∉ new_qsos_of existing qs) ∧
        (dtKey T < dtKey t →
          classify_qso existing q = Decision.toUpdate ex))) ∧
    (ex.app_lotw_rxqsl = none →
      classify_qso existing q = Decision.toUpdate ex) := by
  constructor
  · intro t T ht hT
    constructor
    · intro hle
      have hcls : classify_qso existing q = Decision.skip := by
        simp [classify_qso, hfind, should_update_qso, ht, hT]
        omega
      refine ⟨hcls, fun qs => ⟨?_, ?_⟩⟩
      · intro hmem
        have hpred := (List.mem_filter.mp hmem).2
        simp [update_qsos_of, hcls] at hpred
      · intro hmem
        have hpred := (List.mem_filter.mp hmem).2
        simp [new_qsos_of, hcls] at hpred
    · intro hlt
      simp [classify_qso, hfind, should_update_qso, ht, hT, hlt]
  · intro hnone
    simp [classify_qso, hfind, should_update_qso, hnone]

/-- Witness for C2: the older incoming record is skipped. -/
theorem claim_C2_witness :
    classify_qso [cexEx2] cexQ2 = Decision.skip ∧
      ∀ qs : List NormQSO,
        cexQ2 ∉ update_qsos_of [cexEx2] qs ∧ cexQ2 ∉ new_qsos_of [cexEx2] qs :=
  (((claim_C2_freshness_decision [cexEx2] cexQ2 cexEx2 (by decide)).1
      ⟨2024, 1, 19, 0, 0, 0⟩ ⟨2024, 1, 20, 10, 0, 0⟩ (by decide) (by decide)).1
    (by decide))

/-- C3 fails as stated: an incoming record with ABSENT freshness is still
classified for update (`_should_update_qso` returns True when the new
value is None), and `_batch_update` then overwrites the present stored
`app_lotw_rxqsl` with NULL — a present stored freshness CAN be replaced by
an absent value. -/
theorem claim_C3_counterexample :
    classify_qso [cexEx3] cexQ3 = Decision.toUpdate cexEx3 ∧
    update_qsos_of [cexEx3] [cexQ3] = [cexQ3] ∧
    applied_updates [cexQ3] [cexEx3] = [(cexQ3, cexEx3)] ∧
    cexEx3.app_lotw_rxqsl = some ⟨2024, 1, 20, 10, 0, 0⟩ ∧
    (mkUpdateSet noLookupR150 noLookupCty cexQ3).app_lotw_rxqsl = none := by
  decide

/-- C3 amended: an applied update never replaces a present stored
freshness timestamp with an EARLIER present one — the written value is
either absent (when the incoming record has none) or strictly greater. -/
theorem claim_C3_freshness_not_backward
    (r150get : List Char → Option R150Info)
    (ctyget : List Char → Option (List Char))
    (existing : List ExistingQSO) (qs : List NormQSO) (q : NormQSO)
    (ex : ExistingQSO)
    (hmem : (q, ex) ∈ applied_updates (update_qsos_of existing qs) existing)
    (T : PyDateTime) (hT : ex.app_lotw_rxqsl = some T) :
    (mkUpdateSet r150get ctyget q).app_lotw_rxqsl = none ∨
      ∃ t, (mkUpdateSet r150get ctyget q).app_lotw_rxqsl = some t ∧
        dtKey T < dtKey t := by
  obtain ⟨a, ha, hmap⟩ := List.mem_filterMap.mp hmem
  cases hfind : existing.find? (qsoMatches a) with
  | none => rw [hfind] at hmap; simp at hmap
  | some ex2 =>
    rw [hfind] at hmap
    simp only [Option.map_some', Option.some.injEq, Prod.mk.injEq] at hmap
    obtain ⟨rfl, rfl⟩ := hmap
    have hcl := (List.mem_filter.mp ha).2
    by_cases hsu : should_update_qso a.app_lotw_rxqsl ex2.app_lotw_rxqsl = true
    · rw [should_update_qso.eq_def, hT] at hsu
      cases hq : a.app_lotw_rxqsl with
      | none => exact Or.inl (by simp [mkUpdateSet, hq])
      | some t =>
        rw [hq] at hsu
        exact Or.inr ⟨t, by simp [mkUpdateSet, hq], of_decide_eq_true hsu⟩
    · exfalso
      have hsu2 : should_update_qso a.app_lotw_rxqsl ex2.app_lotw_rxqsl = false :=
        Bool.eq_false_iff.mpr hsu
      simp [update_qsos_of, classify_qso, find_existing_match, hfind, hsu2] at hcl

/-- Witness for C3 at the counterexample pair. -/
theorem claim_C3_witness :
    (mkUpdateSet noLookupR150 noLookupCty cexQ3).app_lotw_rxqsl = none ∨
      ∃ t, (mkUpdateSet noLookupR150 noLookupCty cexQ3).app_lotw_rxqsl = some t ∧
        dtKey ⟨2024, 1, 20, 10, 0, 0⟩ < dtKey t :=
  claim_C3_freshness_not_backward noLookupR150 noLookupCty [cexEx3] [cexQ3]
    cexQ3 cexEx3 (by decide) ⟨2024, 1, 20, 10, 0, 0⟩ (by decide)

theorem applied_updates_nil_right (updQs : List NormQSO) :
    applied_updates updQs [] = [] := by
  induction updQs with
  | nil => rfl
  | cons h t ih =>
    simp only [applied_updates, List.find?] at ih ⊢
    simp [ih]

/-- On a fresh connection, `_batch_insert` never changes the store and
always returns 0: either the list is empty, or building the parameters
raises `KeyError('ru_region')` and the transaction is rolled back. -/
theorem batch_insert_noop (cc : List DbWrite) (user : Int) (qs : List NormQSO)
    (idBase : Nat) : batch_insert ⟨cc, []⟩ user qs idBase = (⟨cc, []⟩, 0) := by
  have hkeys : (batchInsertRequiredKeys.all fun k => preparedKeys.contains k) = false := by
    decide
  rw [batch_insert]
  split
  · rfl
  · rw [if_neg (by rw [hkeys]; exact Bool.false_ne_true)]
    rfl

/-- Closed form of `_batch_update` on a fresh connection: its own writes
commit (or are discarded on failure), independently of anything else. -/
theorem batch_update_closed (r150get : List Char → Option R150Info)
    (ctyget : List Char → Option (List Char)) (cc : List DbWrite)
    (updQs : List NormQSO) (existing : List ExistingQSO) (fail : Bool) :
    batch_update r150get ctyget ⟨cc, []⟩ updQs existing fail =
      (⟨cc ++ (if fail then []
          else (applied_updates updQs existing).map
            (fun p => DbWrite.updateRow p.2.id (mkUpdateSet r150get ctyget p.1))), []⟩,
       if fail then 0
       else ((applied_updates updQs existing).map
         (fun p => DbWrite.updateRow p.2.id (mkUpdateSet r150get ctyget p.1))).length) := by
  rw [batch_update]
  split
  · rename_i h
    rcases h with h | h
    · subst h
      cases fail <;> simp [applied_updates]
    · subst h
      rw [applied_updates_nil_right]
      cases fail <;> simp
  · split
    · rename_i hf
      simp [rollbackConn, hf]
    · rename_i hf
      simp only [Bool.not_eq_true] at hf
      simp [commitConn, hf]

/-- C4 amended: the insert and update paths are NOT one transaction.  On a
fresh connection the task's storage effect is exactly: the insert path
contributes nothing (it always fails before executing and rolls back only
itself, reporting 0), the update path commits its own writes — or, when
its execution fails, rolls back only those — and the task reports success
in every case.  In particular a failure in one path neither undoes the
other path's writes nor marks the task failed. -/
theorem claim_C4_separate_transactions (r150get : List Char → Option R150Info)
    (ctyget : List Char → Option (List Char)) (cc : List DbWrite) (user : Int)
    (qs : List NormQSO) (idBase : Nat) (fail : Bool) :
    process_qso_batch_db r150get ctyget ⟨cc, []⟩ user qs fail idBase =
      (⟨cc ++ (if fail then [] else updateWritesOf r150get ctyget cc user qs), []⟩,
       ⟨true, 0,
        if fail then 0 else (updateWritesOf r150get ctyget cc user qs).length⟩) := by
  simp only [process_qso_batch_db, updateWritesOf]
  have h1 :
      (if new_qsos_of
            (find_existing_batch
              (((tableRows ⟨cc, []⟩).filter (fun r => r.user_id == user)).map
                rowToExisting) qs) qs ≠ [] then
          batch_insert ⟨cc, []⟩ user
            (new_qsos_of
              (find_existing_batch
              (((tableRows ⟨cc, []⟩).filter (fun r => r.user_id == user)).map
                rowToExisting) qs) qs) idBase
        else ((⟨cc, []⟩ : PgConn), 0)) = ((⟨cc, []⟩ : PgConn), 0) := by
    split
    · exact batch_insert_noop cc user _ idBase
    · rfl
  rw [h1]
  have h2 :
      (if update_qsos_of
            (find_existing_batch
              (((tableRows ⟨cc, []⟩).filter (fun r => r.user_id == user)).map
                rowToExisting) qs) qs ≠ [] then
          batch_update r150get ctyget ⟨cc, []⟩
            (update_qsos_of
              (find_existing_batch
              (((tableRows ⟨cc, []⟩).filter (fun r => r.user_id == user)).map
                rowToExisting) qs) qs)
            (find_existing_batch
              (((tableRows ⟨cc, []⟩).filter (fun r => r.user_id == user)).map
                rowToExisting) qs) fail
        else ((⟨cc, []⟩ : PgConn), 0)) =
      (⟨cc ++ (if fail then []
          else (applied_updates
            (update_qsos_of
              (find_existing_batch
              (((tableRows ⟨cc, []⟩).filter (fun r => r.user_id == user)).map
                rowToExisting) qs) qs)
            (find_existing_batch
              (((tableRows ⟨cc, []⟩).filter (fun r => r.user_id == user)).map
                rowToExisting) qs)).map
              (fun p => DbWrite.updateRow p.2.id (mkUpdateSet r150get ctyget p.1))), []⟩,
       if fail then 0
       else ((applied_updates
            (update_qsos_of
              (find_existing_batch
              (((tableRows ⟨cc, []⟩).filter (fun r => r.user_id == user)).map
                rowToExisting) qs) qs)
            (find_existing_batch
              (((tableRows ⟨cc, []⟩).filter (fun r => r.user_id == user)).map
                rowToExisting) qs)).map
              (fun p => DbWrite.updateRow p.2.id (mkUpdateSet r150get ctyget p.1))).length) := by
    split
    · exact batch_update_closed r150get ctyget cc _ _ fail
    · rename_i hup
      simp only [ne_eq, Decidable.not_not] at hup
      rw [hup]
      simp only [applied_updates, List.filterMap_nil, List.map_nil]
      cases fail <;> simp
  rw [h2]

/-- C4 fails as stated: in this run the insert path fails (a non-empty new
list yields 0 inserts) while the update path COMMITS its write, the final
storage differs from the initial one, and the task is reported successful
— there is no single transaction and no task-level rollback. -/
theorem claim_C4_counterexample :
    new_qsos_of
        (find_existing_batch
          (((tableRows conn4).filter (fun r => r.user_id == 1)).map rowToExisting)
          [qNew4, qUpd4]) [qNew4, qUpd4] = [qNew4] ∧
    (process_qso_batch_db noLookupR150 noLookupCty conn4 1 [qNew4, qUpd4]
        false 100).2 = ⟨true, 0, 1⟩ ∧
    (process_qso_batch_db noLookupR150 noLookupCty conn4 1 [qNew4, qUpd4]
        false 100).1.committed ≠ conn4.committed := by decide

/-- C5 (code bug): for every non-empty list of new records the insert path
returns 0 and leaves the store untouched: building the INSERT parameters
reads `q['ru_region']`, but `prepare_qso_data` produces the key `state`
instead of `ru_region`, so every call raises `KeyError`, rolls back and
returns 0 — nothing is ever batch-inserted, against the claim that all new
records are inserted and counted. -/
theorem claim_C5_insert_key_error (conn : PgConn) (user : Int)
    (qs : List NormQSO) (idBase : Nat) (hne : qs ≠ []) :
    batch_insert conn user qs idBase = (rollbackConn conn, 0) ∧
    "ru_region".data ∈ batchInsertRequiredKeys ∧
    "ru_region".data ∉ preparedKeys := by
  have hkeys : (batchInsertRequiredKeys.all fun k => preparedKeys.contains k) = false := by
    decide
  refine ⟨?_, by decide, by decide⟩
  rw [batch_insert, if_neg hne, if_neg (by rw [hkeys]; exact Bool.false_ne_true)]

/-- Witness for C5 on a singleton batch against an empty store. -/
theorem claim_C5_witness :
    batch_insert ⟨[], []⟩ 1 [cexQ5] 0 = (rollbackConn ⟨[], []⟩, 0) ∧
    "ru_region".data ∈ batchInsertRequiredKeys ∧
    "ru_region".data ∉ preparedKeys :=
  claim_C5_insert_key_error ⟨[], []⟩ 1 [cexQ5] 0 (by decide)

/-- C8: on a processing failure the sync marker is never written; the
retry count is incremented and, within the budget, the task is republished
to the delayed queue with the fixed 45-minute TTL (the original delivery
acked); past the budget the delivery is nacked without requeue.  With
`max_retries = 3` a task failing four times is rescheduled with
retry_count 1, 2, 3 and dead-lettered on the fourth failure. -/
theorem claim_C8_retry_policy (task : SyncTask) (err : List Char)
    (now : PyDateTime) :
    (handle_delivery MAX_RETRIES task false err now).marker = none ∧
    (task.retry_count + 1 ≤ MAX_RETRIES →
      handle_delivery MAX_RETRIES task false err now =
        ⟨.rescheduled
          { task with retry_count := task.retry_count + 1,
                      last_error := some err } RETRY_DELAY_MS, none⟩) ∧
    (MAX_RETRIES < task.retry_count + 1 →
      handle_delivery MAX_RETRIES task false err now = ⟨.deadLettered, none⟩) ∧
    (handle_delivery 3 ⟨0, none, none⟩ false err now =
      ⟨.rescheduled ⟨1, none, some err⟩ 2700000, none⟩) ∧
    (handle_delivery 3 ⟨1, none, some err⟩ false err now =
      ⟨.rescheduled ⟨2, none, some err⟩ 2700000, none⟩) ∧
    (handle_delivery 3 ⟨2, none, some err⟩ false err now =
      ⟨.rescheduled ⟨3, none, some err⟩ 2700000, none⟩) ∧
    (handle_delivery 3 ⟨3, none, some err⟩ false err now =
      ⟨.deadLettered, none⟩) := by
  refine ⟨?_, ?_, ?_, ?_, ?_, ?_, ?_⟩
  · simp only [handle_delivery, Bool.false_eq_true, if_false]
    split <;> rfl
  · intro h
    simp [handle_delivery, h]
  · intro h
    have h2 : ¬ (task.retry_count + 1 ≤ MAX_RETRIES) := by omega
    simp [handle_delivery, h2]
  · simp [handle_delivery, RETRY_DELAY_MS]
  · simp [handle_delivery, RETRY_DELAY_MS]
  · simp [handle_delivery, RETRY_DELAY_MS]
  · simp [handle_delivery]

/-- Witness for C8: both retry branches at concrete tasks. -/
theorem claim_C8_witness :
    (handle_delivery MAX_RETRIES ⟨0, none, none⟩ false ("boom".data)
        ⟨2025, 1, 1, 0, 0, 0⟩ =
      ⟨.rescheduled ⟨1, none, some ("boom".data)⟩ RETRY_DELAY_MS, none⟩) ∧
    (handle_delivery MAX_RETRIES ⟨3, none, none⟩ false ("boom".data)
        ⟨2025, 1, 1, 0, 0, 0⟩ = ⟨.deadLettered, none⟩) :=
  ⟨(claim_C8_retry_policy ⟨0, none, none⟩ ("boom".data)
      ⟨2025, 1, 1, 0, 0, 0⟩).2.1 (by decide),
   (claim_C8_retry_policy ⟨3, none, none⟩ ("boom".data)
      ⟨2025, 1, 1, 0, 0, 0⟩).2.2.1 (by decide)⟩

/-- C9 fails as stated: on success the delivery IS acked, but the marker
is advanced to the timestamp parsed from the task's `created_at` (its
creation date, here 2025-10-01 00:00:00), not to the task's completion
time `now9`. -/
theorem claim_C9_counterexample :
    handle_delivery MAX_RETRIES task9 true [] now9 =
      ⟨.acked, some ⟨2025, 10, 1, 0, 0, 0⟩⟩ ∧
    (⟨2025, 10, 1, 0, 0, 0⟩ : PyDateTime) ≠ now9 ∧
    task9.created_at = some ("2025-10-01".data) := by decide

/-- C9 amended: on task success the delivery is acknowledged and the
marker is advanced — but to the timestamp parsed from the task message's
`created_at` field (its creation time, full or date-only layout), falling
back to the current time only when `created_at` is absent, empty or
unparseable. -/
theorem claim_C9_success_marker (maxR : Nat) (task : SyncTask)
    (err : List Char) (now : PyDateTime) :
    (task.created_at = none →
      handle_delivery maxR task true err now = ⟨.acked, some now⟩) ∧
    (∀ s, task.created_at = some s → s ≠ [] → containsSub ['T'] s = false →
      handle_delivery maxR task true err now =
        ⟨.acked, some
          (match strptimeFull s with
           | some dt => dt
           | none =>
             match strptimeDateOnly s with
             | some dt => dt
             | none => now)⟩) := by
  constructor
  · intro h
    simp [handle_delivery, lastsync_marker, h]
  · intro s hs hne hT
    simp [handle_delivery, lastsync_marker, hs, hne, hT]

/-- Witness for C9 at a date-only creation stamp. -/
theorem claim_C9_witness :
    handle_delivery 3 ⟨0, some ("2025-09-30".data), none⟩ true []
        ⟨2025, 10, 12, 0, 0, 0⟩ =
      ⟨.acked, some
        (match strptimeFull ("2025-09-30".data) with
         | some dt => dt
         | none =>
           match strptimeDateOnly ("2025-09-30".data) with
           | some dt => dt
           | none => ⟨2025, 10, 12, 0, 0, 0⟩)⟩ :=
  (claim_C9_success_marker 3 ⟨0, some ("2025-09-30".data), none⟩ []
      ⟨2025, 10, 12, 0, 0, 0⟩).2 ("2025-09-30".data) rfl (by decide) (by decide)
